import Mathlib

/-!
Verification of the abpcrawler concurrency core against its design notes.

The development shallowly embeds the JavaScript sources:
* the action library (states and the go/end_well/end_badly protocol);
* the two crawler variants (namespaces CrawlerA and CrawlerB below map to the
  first and the second copy of the crawler module): TabAllocator,
  PageInfoListener, crawl_url and the crawl_urls batch counter;
* gatherPageInfo from the child process/frame scripts.

JavaScript objects become structures, mutation becomes functional update,
promise continuations become explicit events applied by a script runner, and
a statement that can throw is translated with an Except value or an explicit
branch on the environment flag that decides whether the host call throws.
Ghost fields (serve logs, counters of calls) record the observable history
and never feed back into the control flow taken from the source.
-/

set_option autoImplicit false

namespace ActionLib

/-- The Action.State enumeration of the action library. -/
inductive ActionState where
  | Init
  | Ready
  | Running
  | Done
  | Exception
deriving DecidableEq, Repr

/-- State of one Action.Asynchronous_Action object.  `state` is the `_state`
property.  `goCount` and `stateAtGo` are ghost observations: how many times the
subprogram `_go` was invoked, and the value `_state` held at the moment of the
last `_go` invocation. -/
structure AsyncAction where
  state : ActionState
  goCount : Nat
  stateAtGo : Option ActionState
deriving DecidableEq, Repr

/-- Action.Asynchronous_Action.init: sets `_state` to Ready. -/
def AsyncAction.init : AsyncAction :=
  { state := ActionState.Ready, goCount := 0, stateAtGo := none }

/-- Action.Asynchronous_Action.prototype.go: throws when `_state` is not Ready;
otherwise stores the callbacks (not modelled), sets `_state` to Running and then
invokes `_go` (recorded by the ghost fields, together with the state it runs in). -/
def AsyncAction.go (a : AsyncAction) : Except String AsyncAction :=
  if a.state ≠ ActionState.Ready then
    Except.error "Call to go is invalid because the action is not in state Ready."
  else
    let a1 := { a with state := ActionState.Running }
    Except.ok { a1 with goCount := a1.goCount + 1, stateAtGo := some a1.state }

/-- Action.Asynchronous_Action.prototype.end_well: state moves to Done. -/
def AsyncAction.end_well (a : AsyncAction) : AsyncAction :=
  { a with state := ActionState.Done }

/-- Action.Asynchronous_Action.prototype.end_badly: state moves to Exception. -/
def AsyncAction.end_badly (a : AsyncAction) : AsyncAction :=
  { a with state := ActionState.Exception }

/-- Whether an Except value is a thrown error. -/
def isThrow (e : Except String AsyncAction) : Bool :=
  match e with
  | Except.error _ => true
  | Except.ok _ => false

/-- The operations a client can perform on one action after init. -/
inductive ActionEvent where
  | goEv
  | endWellEv
  | endBadlyEv
deriving DecidableEq, Repr

/-- Apply one operation; a throwing go leaves the object unchanged (the
exception propagates to the caller, the action keeps its state). -/
def AsyncAction.applyEvent (a : AsyncAction) (e : ActionEvent) : AsyncAction :=
  match e with
  | ActionEvent.goEv =>
    match a.go with
    | Except.ok a2 => a2
    | Except.error _ => a
  | ActionEvent.endWellEv => a.end_well
  | ActionEvent.endBadlyEv => a.end_badly

/-- Run a sequence of operations. -/
def AsyncAction.runScript (a : AsyncAction) : List ActionEvent → AsyncAction
  | [] => a
  | e :: es => (a.applyEvent e).runScript es

/-- Invariant tying goCount to the state machine: the subprogram has run at
most once, and not yet while the action is still Ready. -/
def GoInv (a : AsyncAction) : Prop :=
  a.goCount ≤ 1 ∧ (a.state = ActionState.Ready → a.goCount = 0)

end ActionLib

namespace CrawlerA

/-- A page info payload as delivered to setPageInfo.  `error` is the optional
error property of the JavaScript object (the timeout sentinel carries
error = "timeout"); `payload` abstracts the remaining data properties. -/
structure PageInfo where
  error : Option String
  payload : Nat
deriving DecidableEq, Repr

/-- The sentinel object the expect timeout resolves with: onDone is invoked
with the literal object whose error property is "timeout". -/
def timeoutPageInfo : PageInfo := { error := some "timeout", payload := 0 }

/-- State of a PageInfoListener.
* `pageInfoSetters` holds the keys present in the `_pageInfoSetters` map
  (each key maps to the onDone closure of its registration);
* `activeTimers` holds the keys whose setTimeout timer is scheduled and not
  yet fired or cleared (one entry per pending setTimeout);
* `resolutions` is the ghost log of promise resolutions, in order: the
  promise returned by expect never rejects, so every settlement of such a
  promise appears here as (key, pageInfo). -/
structure PageInfoListener where
  pageInfoSetters : List Nat
  activeTimers : List Nat
  resolutions : List (Nat × PageInfo)
deriving DecidableEq, Repr

/-- A freshly constructed listener: `_pageInfoSetters` is an empty map. -/
def PageInfoListener.initial : PageInfoListener :=
  { pageInfoSetters := [], activeTimers := [], resolutions := [] }

/-- The onDone closure created inside expect for `key`: deletes the key from
`_pageInfoSetters`, clears the timeout, and resolves the promise with the
pageInfo value. -/
def PageInfoListener.onDone (l : PageInfoListener) (key : Nat) (info : PageInfo) :
    PageInfoListener :=
  { pageInfoSetters := l.pageInfoSetters.erase key
    activeTimers := l.activeTimers.erase key
    resolutions := l.resolutions ++ [(key, info)] }

/-- PageInfoListener.prototype.expect: schedules a timeout timer for `key` and
stores the onDone closure in the map under `key` (Map.set semantics: a
pre-existing entry for `key` is replaced). -/
def PageInfoListener.expect (l : PageInfoListener) (key : Nat) : PageInfoListener :=
  { pageInfoSetters := key :: l.pageInfoSetters.erase key
    activeTimers := key :: l.activeTimers
    resolutions := l.resolutions }

/-- PageInfoListener.prototype.setPageInfo: looks the key up in the map; when
an entry exists, invokes the stored onDone closure with the payload; when no
entry exists, does nothing.  The translation is a total function: the only
call in the body is guarded by the lookup, so no exception can escape. -/
def PageInfoListener.setPageInfo (l : PageInfoListener) (key : Nat) (info : PageInfo) :
    PageInfoListener :=
  if key ∈ l.pageInfoSetters then l.onDone key info else l

/-- The timeout timer of `key` firing: setTimeout invokes the onDone closure
bound to the timeout sentinel.  The event is only possible while the timer is
scheduled (a resolution already performed cleared the timer). -/
def PageInfoListener.fireTimeout (l : PageInfoListener) (key : Nat) : PageInfoListener :=
  if key ∈ l.activeTimers then
    PageInfoListener.onDone { l with activeTimers := l.activeTimers.erase key }
      key timeoutPageInfo
  else l

/-- State of the first crawler variant's TabAllocator.
* `tabs` is `this._tabs`, the live tab counter;
* `maxtabs` is the fixed capacity;
* `resolvers` is `this._resolvers`, the ids of queued getTab requests,
  front of the list = longest waiting (push enqueues at the back,
  shift dequeues at the front);
* `tabSlot` records whether the `this._tab` promise property is present
  (the bootstrap slot, and later the keep-alive replacement slot);
* `keepAliveOld` records a pending then-continuation of the last-tab branch
  of releaseTab: the tab that the continuation will pass to the recursive
  releaseTab call once the replacement tab promise resolves;
* `nextTab` supplies fresh tab identities for addTab;
* `serves` is the ghost log of request ids in the order they were bound to a
  tab source (returned the `this._tab` promise, returned a fresh createTab
  promise, or resolved from the queue). -/
structure TabAllocator where
  tabs : Nat
  maxtabs : Nat
  resolvers : List Nat
  tabSlot : Bool
  keepAliveOld : Option Nat
  nextTab : Nat
  serves : List Nat
deriving DecidableEq, Repr

/-- The TabAllocator constructor: `_tabs` is set to 0 and then `_createTab`
(which increments `_tabs`) builds the bootstrap tab whose promise is stored in
`this._tab`.  (The constructor continuation that removes the pre-existing
browser tab touches no allocator state.) -/
def TabAllocator.mkPool (maxtabs : Nat) : TabAllocator :=
  { tabs := 1, maxtabs := maxtabs, resolvers := [], tabSlot := true,
    keepAliveOld := none, nextTab := 1, serves := [] }

/-- TabAllocator.prototype.getTab of the first variant: when `this._tab` is
present, delete it and hand that promise to the caller; else when
`_tabs < _maxtabs`, create a fresh tab for the caller; else push the caller's
resolve function onto `_resolvers`. -/
def TabAllocator.getTab (s : TabAllocator) (rid : Nat) : TabAllocator :=
  if s.tabSlot then
    { s with tabSlot := false, serves := s.serves ++ [rid] }
  else if s.tabs < s.maxtabs then
    { s with
      tabs := s.tabs + 1
      nextTab := s.nextTab + 1
      serves := s.serves ++ [rid] }
  else
    { s with resolvers := s.resolvers ++ [rid] }

/-- TabAllocator.prototype.releaseTab of the first variant.  When `_tabs` is 1
the tab is not closed: `_createTab` runs (incrementing `_tabs` and producing a
replacement), the promise is stored in `this._tab` and its continuation — the
recursive `releaseTab` on the original tab — is left pending.  Otherwise the
tab is removed, `_tabs` decremented, and when resolvers wait, the front
resolver receives `this._tab` when present, or a fresh tab when capacity
allows. -/
def TabAllocator.releaseTab (s : TabAllocator) (t : Nat) : TabAllocator :=
  if s.tabs = 1 then
    { s with
      tabs := s.tabs + 1
      tabSlot := true
      keepAliveOld := some t
      nextTab := s.nextTab + 1 }
  else
    match s.resolvers with
    | [] => { s with tabs := s.tabs - 1 }
    | r :: rest =>
      if s.tabSlot then
        { s with
          tabs := s.tabs - 1
          resolvers := rest
          tabSlot := false
          serves := s.serves ++ [r] }
      else if s.tabs - 1 < s.maxtabs then
        { s with
          tabs := s.tabs - 1 + 1
          resolvers := rest
          nextTab := s.nextTab + 1
          serves := s.serves ++ [r] }
      else
        { s with tabs := s.tabs - 1 }

/-- The pending then-continuation of the last-tab branch running: it performs
`this.releaseTab(tab)` on the originally released tab (the replacement tab
itself stays available through `this._tab`, which the continuation does not
delete in this variant). -/
def TabAllocator.runKeepAliveThen (s : TabAllocator) : TabAllocator :=
  match s.keepAliveOld with
  | none => s
  | some t => TabAllocator.releaseTab { s with keepAliveOld := none } t

/-- Events of the allocator model: a getTab call by request `rid`, a
releaseTab call on tab `t`, and the asynchronous completion of the last-tab
replacement continuation. -/
inductive PoolEvent where
  | getTabEv (rid : Nat)
  | releaseTabEv (t : Nat)
  | keepAliveThenEv
deriving DecidableEq, Repr

/-- One interleaving step. -/
def TabAllocator.step (s : TabAllocator) : PoolEvent → TabAllocator
  | PoolEvent.getTabEv rid => s.getTab rid
  | PoolEvent.releaseTabEv t => s.releaseTab t
  | PoolEvent.keepAliveThenEv => s.runKeepAliveThen

/-- Run a sequence of interleaving steps. -/
def TabAllocator.run (s : TabAllocator) : List PoolEvent → TabAllocator
  | [] => s
  | e :: es => (s.step e).run es

end CrawlerA

namespace CrawlerB

/-- State of the second crawler variant's TabAllocator, translated with the
source's misspelling kept: `_createTab` increments the property `tabs`
(`this.tabs++`) while every read in `getTab` and `releaseTab` is of `_tabs`.
Fields:
* `_tabs` is `this._tabs` (set to 0 by the constructor, decremented by
  releaseTab, never incremented by any code path);
* `tabs` is `this.tabs`, the property the increment in `_createTab` actually
  writes (it is never read; in JavaScript its value is NaN, here a counter);
* `_tabInUse` marks the bootstrap `this._tab` promise as handed out;
* `tabSlot` records whether the `this._tab` property is present;
* `bootPending` records that the constructor then-continuation (which deletes
  `this._tab` and removes the other browser tabs) has not run yet;
* `keepAliveOld` records a pending then-continuation of the last-tab branch
  of releaseTab;
* `pendingRetry` holds getTab calls deferred through
  `this._tab.then(() => this.getTab())`;
* `removedTabs` is the ghost log of browser.removeTab calls;
* `createdTabs` counts browser.addTab calls;
* `allocated` is the ghost count of tabs currently handed out and not yet
  released; `serves` is the ghost log of request ids in bind order. -/
structure TabAllocator where
  _tabs : Nat
  tabs : Nat
  maxtabs : Nat
  _tabInUse : Bool
  tabSlot : Bool
  bootPending : Bool
  keepAliveOld : Option Nat
  pendingRetry : List Nat
  resolvers : List Nat
  removedTabs : List Nat
  createdTabs : Nat
  allocated : Nat
  serves : List Nat
deriving DecidableEq, Repr

/-- `_createTab` of the second variant: `this.tabs++` (the misspelling — it
does not touch `_tabs`), then browser.addTab. -/
def TabAllocator.createTab (s : TabAllocator) : TabAllocator :=
  { s with tabs := s.tabs + 1, createdTabs := s.createdTabs + 1 }

/-- The constructor: `_tabs = 0`, `_tabInUse = false`, then
`this._tab = this._createTab().then(...)` with the continuation left
pending. -/
def TabAllocator.mkPool (maxtabs : Nat) : TabAllocator :=
  TabAllocator.createTab
    { _tabs := 0, tabs := 0, maxtabs := maxtabs, _tabInUse := false,
      tabSlot := true, bootPending := true, keepAliveOld := none,
      pendingRetry := [], resolvers := [], removedTabs := [],
      createdTabs := 0, allocated := 0, serves := [] }

/-- The constructor then-continuation running: deletes `this._tab` (and
removes the other browser tabs, which touches no allocator state). -/
def TabAllocator.bootThen (s : TabAllocator) : TabAllocator :=
  if s.bootPending then { s with bootPending := false, tabSlot := false }
  else s

/-- getTab of the second variant: while `this._tab` is present, hand it out
once (`_tabInUse` guard) or defer the call until the promise resolves;
otherwise compare `_tabs` with `_maxtabs` to decide between creating a tab
and queuing the request. -/
def TabAllocator.getTab (s : TabAllocator) (rid : Nat) : TabAllocator :=
  if s.tabSlot then
    if s._tabInUse = false then
      { s with
        _tabInUse := true
        allocated := s.allocated + 1
        serves := s.serves ++ [rid] }
    else
      { s with pendingRetry := s.pendingRetry ++ [rid] }
  else if s._tabs < s.maxtabs then
    TabAllocator.createTab
      { s with allocated := s.allocated + 1, serves := s.serves ++ [rid] }
  else
    { s with resolvers := s.resolvers ++ [rid] }

/-- releaseTab of the second variant: when no resolver waits and `_tabs == 1`,
replace before closing (store a fresh `this._tab`, leave the recursive
releaseTab pending); otherwise remove the tab and either hand a fresh tab to
the front resolver or decrement `_tabs`. -/
def TabAllocator.releaseTab (s : TabAllocator) (t : Nat) : TabAllocator :=
  if s.resolvers.isEmpty ∧ s._tabs = 1 then
    TabAllocator.createTab
      { s with
        _tabInUse := false
        tabSlot := true
        keepAliveOld := some t
        allocated := s.allocated - 1 }
  else
    match s.resolvers with
    | r :: rest =>
      TabAllocator.createTab
        { s with
          removedTabs := s.removedTabs ++ [t]
          resolvers := rest
          serves := s.serves ++ [r] }
    | [] =>
      { s with
        removedTabs := s.removedTabs ++ [t]
        _tabs := s._tabs - 1
        allocated := s.allocated - 1 }

/-- The then-continuation of the last-tab branch running: deletes `this._tab`
and performs the recursive `releaseTab` on the original tab. -/
def TabAllocator.keepAliveThen (s : TabAllocator) : TabAllocator :=
  match s.keepAliveOld with
  | none => s
  | some t =>
    TabAllocator.releaseTab { s with keepAliveOld := none, tabSlot := false } t

/-- A deferred getTab (queued on `this._tab.then`) re-entering getTab. -/
def TabAllocator.retryRun (s : TabAllocator) : TabAllocator :=
  match s.pendingRetry with
  | [] => s
  | rid :: rest => TabAllocator.getTab { s with pendingRetry := rest } rid

/-- Events of the second variant's allocator model. -/
inductive PoolEvent where
  | getTabEv (rid : Nat)
  | releaseTabEv (t : Nat)
  | bootThenEv
  | keepAliveThenEv
  | retryRunEv
deriving DecidableEq, Repr

/-- One interleaving step. -/
def TabAllocator.step (s : TabAllocator) : PoolEvent → TabAllocator
  | PoolEvent.getTabEv rid => s.getTab rid
  | PoolEvent.releaseTabEv t => s.releaseTab t
  | PoolEvent.bootThenEv => s.bootThen
  | PoolEvent.keepAliveThenEv => s.keepAliveThen
  | PoolEvent.retryRunEv => s.retryRun

/-- Run a sequence of interleaving steps. -/
def TabAllocator.run (s : TabAllocator) : List PoolEvent → TabAllocator
  | [] => s
  | e :: es => (s.step e).run es

end CrawlerB

namespace CrawlerA

/-- The result object a first-variant crawl task accumulates.  The requests
array and the data properties merged in from the pageInfo object are
abstracted away; the timing, url and error properties are kept. -/
structure JobRecord where
  url : String
  startTime : Option Nat
  endTime : Option Nat
  finalUrl : Option String
  error : Option String
deriving DecidableEq, Repr

/-- Observable calls a crawl task makes on its collaborators, in order. -/
inductive CrawlEffect where
  | expectCall (key : Nat)
  | loadCall
  | notifierShutdownCall
  | releaseTabCall
deriving DecidableEq, Repr

/-- Environment of one first-variant crawl task run: which host calls throw
and what the collaborators deliver. -/
structure CrawlEnv where
  notifierThrows : Bool
  loadThrows : Bool
  awaitTimedOut : Bool
  signalInfo : PageInfo
  startClock : Nat
  endClock : Nat
  currentURI : String
  windowID : Nat
deriving DecidableEq, Repr

/-- Outcome of one first-variant crawl task run: the value the Task promise
settles with (ok = the result object, error = the propagated exception), the
result object as last mutated before the exit, and the effect trace. -/
structure CrawlRun where
  outcome : Except String JobRecord
  recordSoFar : JobRecord
  effects : List CrawlEffect
deriving Repr

/-- The finally block of crawl_url: shut the RequestNotifier down when one was
created, then release the tab.  Both exit paths of the try statement run it. -/
def crawlFinallyEffects (notifierCreated : Bool) : List CrawlEffect :=
  (if notifierCreated then [CrawlEffect.notifierShutdownCall] else [])
    ++ [CrawlEffect.releaseTabCall]

/-- First-variant crawl_url after the tab has been acquired: set startTime,
construct the RequestNotifier, register the expect, trigger the load, await
the pageInfo promise (which resolves with the signalled payload or with the
timeout sentinel, never rejects), then record finalUrl, merge the pageInfo
object into the result (modelled by its error property) and set endTime.
An exception anywhere inside the try jumps to the finally block and rejects
the Task promise. -/
def crawl_url (url : String) (env : CrawlEnv) : CrawlRun :=
  let r1 : JobRecord :=
    { url := url, startTime := some env.startClock, endTime := none,
      finalUrl := none, error := none }
  if env.notifierThrows then
    { outcome := Except.error "RequestNotifier constructor threw"
      recordSoFar := r1
      effects := crawlFinallyEffects false }
  else if env.loadThrows then
    { outcome := Except.error "loadURI threw"
      recordSoFar := r1
      effects := [CrawlEffect.expectCall env.windowID, CrawlEffect.loadCall]
        ++ crawlFinallyEffects true }
  else
    let info := if env.awaitTimedOut then timeoutPageInfo else env.signalInfo
    let r2 := { r1 with finalUrl := some env.currentURI }
    let r3 := match info.error with
      | some e => { r2 with error := some e }
      | none => r2
    let r4 := { r3 with endTime := some env.endClock }
    { outcome := Except.ok r4
      recordSoFar := r4
      effects := [CrawlEffect.expectCall env.windowID, CrawlEffect.loadCall]
        ++ crawlFinallyEffects true }

/-- The settlement of one spawned crawl task as crawl_urls observes it:
fulfilment with the result object, or rejection with an exception (the
rejection handler additionally samples Date.now, the `now` argument). -/
inductive TaskOutcome where
  | success (result : JobRecord)
  | failure (excString : String) (now : Nat)
deriving DecidableEq, Repr

/-- The record the crawl_urls rejection handler posts for a failed task:
url, a startTime freshly sampled in the handler, and the stringified
exception.  No field of the previously accumulated result object is used. -/
def failureRecord (url : String) (excString : String) (now : Nat) : JobRecord :=
  { url := url, startTime := some now, endTime := none, finalUrl := none,
    error := some excString }

/-- The batch counter of crawl_urls: `running` is the outstanding-task count,
`onDoneCount` a ghost count of onDone invocations, `reports` the ghost log of
records posted to the target URL, in order. -/
structure BatchState where
  running : Int
  onDoneCount : Nat
  reports : List JobRecord
deriving DecidableEq, Repr

/-- The synchronous part of crawl_urls: the loop spawns one task per url,
incrementing `running` each iteration.  No taskDone handler can run before
the loop ends (handlers fire on asynchronous XMLHttpRequest events), so the
launched state has running = urls.length and nothing reported yet. -/
def crawl_urls_launch (urls : List String) : BatchState :=
  { running := urls.length, onDoneCount := 0, reports := [] }

/-- The taskDone closure of crawl_urls: decrement `running` and, when it is
now at most zero, stop the window closer and invoke onDone. -/
def taskDone (s : BatchState) : BatchState :=
  if s.running - 1 ≤ 0 then
    { s with running := s.running - 1, onDoneCount := s.onDoneCount + 1 }
  else
    { s with running := s.running - 1 }

/-- One task settling: the fulfilment handler posts the result object, the
rejection handler posts the failureRecord; in both cases the XMLHttpRequest
load/error event then runs taskDone exactly once. -/
def taskComplete (s : BatchState) (url : String) (o : TaskOutcome) : BatchState :=
  match o with
  | TaskOutcome.success r => taskDone { s with reports := s.reports ++ [r] }
  | TaskOutcome.failure exc now =>
    taskDone { s with reports := s.reports ++ [failureRecord url exc now] }

/-- Fold a sequence of task settlements over a batch state. -/
def runFrom (s : BatchState) : List (String × TaskOutcome) → BatchState
  | [] => s
  | c :: cs => runFrom (taskComplete s c.1 c.2) cs

/-- crawl_urls as the batch counter sees it: launch all tasks, then process
the given task settlements (at most one per spawned task). -/
def crawl_urls (urls : List String) (completions : List (String × TaskOutcome)) :
    BatchState :=
  runFrom (crawl_urls_launch urls) completions

end CrawlerA

namespace CrawlerB

/-- The result object a second-variant crawl task accumulates (the requests
array is abstracted away). -/
structure JobRecord where
  url : String
  startTime : Option Nat
  endTime : Option Nat
  finalUrl : Option String
  channelStatus : Option Nat
  headers : Option (List String)
  screenshot : Option String
  source : Option String
  error : Option String
deriving DecidableEq, Repr

/-- Observable calls a second-variant crawl task makes, in order. -/
inductive CrawlEffect where
  | loadCall
  | waitForLoadCall
  | notifierShutdownCall
  | releaseTabCall
deriving DecidableEq, Repr

/-- Environment of one second-variant crawl task run.  waitForLoad's promise
is only ever resolved (the deferred has no rejection path; the timeout merely
stops the load so that the state-change listener resolves it), so the await
step always yields a channel status and headers. -/
structure CrawlEnv where
  notifierThrows : Bool
  loadThrows : Bool
  channelStatus : Nat
  headers : List String
  startClock : Nat
  endClock : Nat
  currentURI : String
  hasDocumentElement : Bool
  screenshotThrows : Bool
  screenshotExn : String
  screenshotData : String
  serializeThrows : Bool
  sourceData : String
deriving DecidableEq, Repr

/-- Outcome of one second-variant crawl task run. -/
structure CrawlRun where
  outcome : Except String JobRecord
  recordSoFar : JobRecord
  effects : List CrawlEffect
deriving Repr

/-- The finally block of the second-variant crawl_url. -/
def crawlFinallyEffects (notifierCreated : Bool) : List CrawlEffect :=
  (if notifierCreated then [CrawlEffect.notifierShutdownCall] else [])
    ++ [CrawlEffect.releaseTabCall]

/-- Second-variant crawl_url after the tab has been acquired: set startTime,
construct the RequestNotifier, trigger the load, await waitForLoad (storing
channelStatus and headers), set endTime and finalUrl, then gather: when the
document has a documentElement, capture a screenshot inside an inner
try/catch (a throw is caught and recorded as the error property) and
serialize the page source (a throw here propagates).  Every exit path runs
the finally block. -/
def crawl_url (url : String) (env : CrawlEnv) : CrawlRun :=
  let r1 : JobRecord :=
    { url := url, startTime := some env.startClock, endTime := none,
      finalUrl := none, channelStatus := none, headers := none,
      screenshot := none, source := none, error := none }
  if env.notifierThrows then
    { outcome := Except.error "RequestNotifier constructor threw"
      recordSoFar := r1
      effects := crawlFinallyEffects false }
  else if env.loadThrows then
    { outcome := Except.error "loadURI threw"
      recordSoFar := r1
      effects := [CrawlEffect.loadCall] ++ crawlFinallyEffects true }
  else
    let r2 := { r1 with
      channelStatus := some env.channelStatus
      headers := some env.headers }
    let r3 := { r2 with
      endTime := some env.endClock
      finalUrl := some env.currentURI }
    if env.hasDocumentElement then
      let r4 :=
        if env.screenshotThrows then
          { r3 with error := some ("Capturing screenshot failed: " ++ env.screenshotExn) }
        else
          { r3 with screenshot := some env.screenshotData }
      if env.serializeThrows then
        { outcome := Except.error "serializeToString threw"
          recordSoFar := r4
          effects := [CrawlEffect.loadCall, CrawlEffect.waitForLoadCall]
            ++ crawlFinallyEffects true }
      else
        { outcome := Except.ok { r4 with source := some env.sourceData }
          recordSoFar := { r4 with source := some env.sourceData }
          effects := [CrawlEffect.loadCall, CrawlEffect.waitForLoadCall]
            ++ crawlFinallyEffects true }
    else
      { outcome := Except.ok r3
        recordSoFar := r3
        effects := [CrawlEffect.loadCall, CrawlEffect.waitForLoadCall]
          ++ crawlFinallyEffects true }

end CrawlerB

namespace ChildScript

/-- Environment of one gatherPageInfo call in the child process/frame script:
the document shape and which host calls throw. -/
structure GatherEnv where
  hasDocumentElement : Bool
  scrollWidth : Nat
  scrollHeight : Nat
  drawWindowThrows : Bool
  serializeThrows : Bool
  screenshotData : String
  sourceData : String
deriving DecidableEq, Repr

/-- The object gatherPageInfo returns: each property is absent or set. -/
structure GatherResult where
  screenshot : Option String
  source : Option String
  error : Option String
deriving DecidableEq, Repr

/-- The empty result object `{}`. -/
def emptyGatherResult : GatherResult :=
  { screenshot := none, source := none, error := none }

/-- The try block of gatherPageInfo: when the canvas dimensions are positive,
capture the screenshot (the drawWindow/toDataURL step may throw), then serialize
the document element (may throw).  A throw carries the result object as
mutated so far to the catch. -/
def gatherTry (env : GatherEnv) : Except GatherResult GatherResult :=
  if 0 < env.scrollWidth ∧ 0 < env.scrollHeight then
    if env.drawWindowThrows then
      Except.error emptyGatherResult
    else
      let r1 := { emptyGatherResult with screenshot := some env.screenshotData }
      if env.serializeThrows then Except.error r1
      else Except.ok { r1 with source := some env.sourceData }
  else
    if env.serializeThrows then Except.error emptyGatherResult
    else Except.ok { emptyGatherResult with source := some env.sourceData }

/-- gatherPageInfo of processScript.js / frameScript.js: with no
documentElement the empty object is returned untouched; otherwise the try
block runs and a caught exception sets the error property to
"Cannot gather page info" on the half-filled result.  The function is
total: no exception escapes it. -/
def gatherPageInfo (env : GatherEnv) : GatherResult :=
  if env.hasDocumentElement then
    match gatherTry env with
    | Except.ok r => r
    | Except.error caughtRec => { caughtRec with error := some "Cannot gather page info" }
  else emptyGatherResult

end ChildScript

/-! ## Supporting lemmas -/

namespace ActionLib

theorem goInv_applyEvent (a : AsyncAction) (e : ActionEvent)
    (h : GoInv a) : GoInv (a.applyEvent e) := by
  obtain ⟨h1, h2⟩ := h
  cases e with
  | goEv =>
    by_cases hs : a.state = ActionState.Ready
    · simp only [AsyncAction.applyEvent, AsyncAction.go, hs]
      simp only [ne_eq, not_true_eq_false, if_false]
      constructor
      · simp [h2 hs]
      · intro hcon
        simp at hcon
    · simp only [AsyncAction.applyEvent, AsyncAction.go, ne_eq, hs, not_false_eq_true,
        if_true]
      exact ⟨h1, h2⟩
  | endWellEv =>
    refine ⟨h1, ?_⟩
    intro hcon
    simp [AsyncAction.applyEvent, AsyncAction.end_well] at hcon
  | endBadlyEv =>
    refine ⟨h1, ?_⟩
    intro hcon
    simp [AsyncAction.applyEvent, AsyncAction.end_badly] at hcon

theorem goInv_runScript (a : AsyncAction) (es : List ActionEvent)
    (h : GoInv a) : GoInv (a.runScript es) := by
  induction es generalizing a with
  | nil => exact h
  | cons e es ih => exact ih (a.applyEvent e) (goInv_applyEvent a e h)

end ActionLib

namespace CrawlerA

theorem releaseTab_tabs_pos (s : TabAllocator) (t : Nat)
    (h : 1 ≤ s.tabs) : 1 ≤ (s.releaseTab t).tabs := by
  unfold TabAllocator.releaseTab
  split
  · show 1 ≤ s.tabs + 1
    omega
  · split
    · show 1 ≤ s.tabs - 1
      omega
    · split
      · show 1 ≤ s.tabs - 1
        omega
      · split
        · show 1 ≤ s.tabs - 1 + 1
          omega
        · show 1 ≤ s.tabs - 1
          omega

theorem tabs_pos_step (s : TabAllocator) (e : PoolEvent)
    (h : 1 ≤ s.tabs) : 1 ≤ (s.step e).tabs := by
  cases e with
  | getTabEv rid =>
    show 1 ≤ (s.getTab rid).tabs
    unfold TabAllocator.getTab
    split
    · exact h
    · split
      · show 1 ≤ s.tabs + 1
        omega
      · exact h
  | releaseTabEv t =>
    exact releaseTab_tabs_pos s t h
  | keepAliveThenEv =>
    show 1 ≤ s.runKeepAliveThen.tabs
    unfold TabAllocator.runKeepAliveThen
    split
    · exact h
    · exact releaseTab_tabs_pos _ _ h

/-- The live tab count of the first variant never drops below one on any
interleaving: the keep-alive branch creates the replacement before the
deferred release of the original runs. -/
theorem tabs_pos_run (maxtabs : Nat) (es : List PoolEvent) :
    1 ≤ (TabAllocator.run (TabAllocator.mkPool maxtabs) es).tabs := by
  have base : 1 ≤ (TabAllocator.mkPool maxtabs).tabs := le_refl 1
  have general : ∀ (s : TabAllocator), 1 ≤ s.tabs →
      ∀ (l : List PoolEvent), 1 ≤ (TabAllocator.run s l).tabs := by
    intro s hs l
    induction l generalizing s with
    | nil => exact hs
    | cons e l ih => exact ih (s.step e) (tabs_pos_step s e hs)
  exact general _ base es

theorem taskComplete_fields (s : BatchState) (u : String) (o : TaskOutcome) :
    (taskComplete s u o).running = s.running - 1
    ∧ (taskComplete s u o).reports.length = s.reports.length + 1
    ∧ (taskComplete s u o).onDoneCount
        = (if s.running - 1 ≤ 0 then s.onDoneCount + 1 else s.onDoneCount) := by
  cases o with
  | success r =>
    by_cases h : s.running - 1 ≤ 0 <;>
      simp [taskComplete, taskDone, h]
  | failure exc now =>
    by_cases h : s.running - 1 ≤ 0 <;>
      simp [taskComplete, taskDone, h]

theorem runFrom_lt (cs : List (String × TaskOutcome)) (s : BatchState)
    (h : (cs.length : Int) < s.running) :
    (runFrom s cs).onDoneCount = s.onDoneCount
    ∧ (runFrom s cs).running = s.running - cs.length
    ∧ (runFrom s cs).reports.length = s.reports.length + cs.length := by
  induction cs generalizing s with
  | nil =>
    refine ⟨rfl, ?_, ?_⟩ <;> simp [runFrom]
  | cons c cs ih =>
    simp only [List.length_cons] at h
    push_cast at h
    obtain ⟨f1, f2, f3⟩ := taskComplete_fields s c.1 c.2
    have hnot : ¬ (s.running - 1 ≤ 0) := by omega
    obtain ⟨g1, g2, g3⟩ := ih (taskComplete s c.1 c.2) (by rw [f1]; omega)
    refine ⟨?_, ?_, ?_⟩ <;> simp only [runFrom]
    · rw [g1, f3, if_neg hnot]
    · rw [g2, f1]
      simp only [List.length_cons]
      push_cast
      ring
    · rw [g3, f2]
      simp only [List.length_cons]
      omega

theorem runFrom_exact (cs : List (String × TaskOutcome)) (s : BatchState)
    (h : (cs.length : Int) = s.running) (h1 : 1 ≤ cs.length) :
    (runFrom s cs).onDoneCount = s.onDoneCount + 1
    ∧ (runFrom s cs).running = 0
    ∧ (runFrom s cs).reports.length = s.reports.length + cs.length := by
  induction cs generalizing s with
  | nil => simp at h1
  | cons c cs ih =>
    obtain ⟨f1, f2, f3⟩ := taskComplete_fields s c.1 c.2
    cases cs with
    | nil =>
      have hs : s.running = 1 := by
        simp only [List.length_cons, List.length_nil] at h
        omega
      have hfire : s.running - 1 ≤ 0 := by omega
      refine ⟨?_, ?_, ?_⟩ <;> simp only [runFrom]
      · rw [f3, if_pos hfire]
      · rw [f1, hs]
        norm_num
      · rw [f2]
        simp
    | cons c2 cs2 =>
      simp only [List.length_cons] at h
      push_cast at h
      have hnot : ¬ (s.running - 1 ≤ 0) := by omega
      obtain ⟨g1, g2, g3⟩ := ih (taskComplete s c.1 c.2)
        (by rw [f1]; simp only [List.length_cons]; push_cast; omega)
        (by simp)
      have e0 : runFrom s (c :: c2 :: cs2)
          = runFrom (taskComplete s c.1 c.2) (c2 :: cs2) := rfl
      refine ⟨?_, ?_, ?_⟩
      · rw [e0, g1, f3, if_neg hnot]
      · rw [e0, g2]
      · rw [e0, g3, f2]
        simp only [List.length_cons]
        omega

theorem releaseTab_queue_discipline (s : TabAllocator) (t : Nat) :
    ((s.releaseTab t).resolvers = s.resolvers
      ∨ ∃ r, (s.releaseTab t).resolvers = s.resolvers ++ [r])
    ∨ (∃ r rest, s.resolvers = r :: rest ∧ (s.releaseTab t).resolvers = rest
        ∧ (s.releaseTab t).serves = s.serves ++ [r]) := by
  unfold TabAllocator.releaseTab
  split
  · exact Or.inl (Or.inl rfl)
  · split
    · exact Or.inl (Or.inl rfl)
    · rename_i r rest heq
      split
      · exact Or.inr ⟨r, rest, heq, rfl, rfl⟩
      · split
        · exact Or.inr ⟨r, rest, heq, rfl, rfl⟩
        · exact Or.inl (Or.inl rfl)

end CrawlerA

/-! ## Claim theorems -/

/-- C1: the claim states that a TabAllocator never has more than maxtabs tabs
concurrently in use and that a saturated pool enqueues further getTab calls.
The cited code (the second variant) violates this: `_createTab` increments the
misspelled property `tabs` instead of `_tabs`, so `_tabs` is stuck at 0 and
the guard `_tabs < _maxtabs` always creates a fresh tab.  Evaluation at the
failing input: maxtabs = 1, one getTab taking the bootstrap tab, the
bootstrap continuation running, then a second getTab — the allocator hands
out two tabs concurrently (allocated = 2 with capacity 1) and the resolver
queue stays empty (the request is never enqueued), while `_tabs` still
reads 0. -/
theorem c1_capacity_bound_violated_eval :
    (CrawlerB.TabAllocator.run (CrawlerB.TabAllocator.mkPool 1)
        [CrawlerB.PoolEvent.getTabEv 0, CrawlerB.PoolEvent.bootThenEv,
         CrawlerB.PoolEvent.getTabEv 1]).allocated = 2
    ∧ (CrawlerB.TabAllocator.run (CrawlerB.TabAllocator.mkPool 1)
        [CrawlerB.PoolEvent.getTabEv 0, CrawlerB.PoolEvent.bootThenEv,
         CrawlerB.PoolEvent.getTabEv 1]).resolvers = []
    ∧ (CrawlerB.TabAllocator.run (CrawlerB.TabAllocator.mkPool 1)
        [CrawlerB.PoolEvent.getTabEv 0, CrawlerB.PoolEvent.bootThenEv,
         CrawlerB.PoolEvent.getTabEv 1])._tabs = 0
    ∧ (CrawlerB.TabAllocator.mkPool 1).maxtabs = 1 := by
  decide

/-- C2 counterexample: with urls empty the loop body of crawl_urls never
runs, `running` stays 0 and taskDone — the only caller of onDone — is never
invoked, so onDone does not fire at all (the claim asserts it fires exactly
once, immediately). -/
theorem c2_counterexample_empty_urls_no_onDone :
    (CrawlerA.crawl_urls [] []).onDoneCount = 0 := by
  decide

/-- C2 (amended): for a nonempty url list, onDone fires exactly once, and
only when all len(urls) settlements have been processed (each settlement
posts exactly one record); before that point onDone has not fired.  The
empty-url case is excluded: there crawl_urls never invokes onDone. -/
theorem c2_nonempty_onDone_exactly_once (urls : List String)
    (completions : List (String × CrawlerA.TaskOutcome))
    (h1 : 1 ≤ urls.length) (h2 : completions.length ≤ urls.length) :
    ((CrawlerA.crawl_urls urls completions).onDoneCount
        = if completions.length = urls.length then 1 else 0)
    ∧ (CrawlerA.crawl_urls urls completions).reports.length = completions.length := by
  have hrun : (CrawlerA.crawl_urls_launch urls).running = (urls.length : Int) := rfl
  have hrep : (CrawlerA.crawl_urls_launch urls).reports.length = 0 := rfl
  have hcnt : (CrawlerA.crawl_urls_launch urls).onDoneCount = 0 := rfl
  by_cases hfull : completions.length = urls.length
  · obtain ⟨g1, g2, g3⟩ := CrawlerA.runFrom_exact completions
      (CrawlerA.crawl_urls_launch urls)
      (by rw [hrun, hfull]) (by omega)
    refine ⟨?_, ?_⟩
    · rw [if_pos hfull]
      show (CrawlerA.runFrom (CrawlerA.crawl_urls_launch urls) completions).onDoneCount = 1
      rw [g1, hcnt]
    · show (CrawlerA.runFrom (CrawlerA.crawl_urls_launch urls) completions).reports.length
        = completions.length
      rw [g3, hrep]
      omega
  · obtain ⟨g1, g2, g3⟩ := CrawlerA.runFrom_lt completions
      (CrawlerA.crawl_urls_launch urls)
      (by rw [hrun]; exact Nat.cast_lt.mpr (by omega))
    refine ⟨?_, ?_⟩
    · rw [if_neg hfull]
      show (CrawlerA.runFrom (CrawlerA.crawl_urls_launch urls) completions).onDoneCount = 0
      rw [g1, hcnt]
    · show (CrawlerA.runFrom (CrawlerA.crawl_urls_launch urls) completions).reports.length
        = completions.length
      rw [g3, hrep]
      omega

/-- C2 witness: two urls, both failing; onDone fires exactly once after both
settlements, and two records were posted. -/
theorem c2_nonempty_onDone_exactly_once_witness :
    (CrawlerA.crawl_urls ["a", "b"]
        [("a", CrawlerA.TaskOutcome.failure "boom" 7),
         ("b", CrawlerA.TaskOutcome.failure "boom" 9)]).onDoneCount = 1
    ∧ (CrawlerA.crawl_urls ["a", "b"]
        [("a", CrawlerA.TaskOutcome.failure "boom" 7),
         ("b", CrawlerA.TaskOutcome.failure "boom" 9)]).reports.length = 2 := by
  have h := c2_nonempty_onDone_exactly_once ["a", "b"]
    [("a", CrawlerA.TaskOutcome.failure "boom" 7),
     ("b", CrawlerA.TaskOutcome.failure "boom" 9)]
    (by decide) (by decide)
  exact ⟨by simpa using h.1, h.2⟩

/-- C3: in both crawl_url variants, on every exit path of the body after the
tab is acquired — normal completion, timeout resolution, or an exception from
the RequestNotifier constructor, the load trigger, or (second variant) the
gather steps — releaseTab is called exactly once, and it is the last effect
of the run (the release sits in the finally block). -/
theorem c3_release_exactly_once_every_exit_path :
    ∀ (url : String) (envA : CrawlerA.CrawlEnv) (envB : CrawlerB.CrawlEnv),
      ((CrawlerA.crawl_url url envA).effects.count CrawlerA.CrawlEffect.releaseTabCall = 1
        ∧ (CrawlerA.crawl_url url envA).effects.getLast?
            = some CrawlerA.CrawlEffect.releaseTabCall)
      ∧ ((CrawlerB.crawl_url url envB).effects.count CrawlerB.CrawlEffect.releaseTabCall = 1
        ∧ (CrawlerB.crawl_url url envB).effects.getLast?
            = some CrawlerB.CrawlEffect.releaseTabCall) := by
  intro url envA envB
  refine ⟨?_, ?_⟩
  · obtain ⟨nA, lA, tA, si, sc, ec, cu, wid⟩ := envA
    cases nA <;> cases lA <;> exact ⟨rfl, rfl⟩
  · obtain ⟨nB, lB, cst, hd, sc, ec, cu, hde, scrT, scrE, scrD, serT, srcD⟩ := envB
    cases nB <;> cases lB <;> cases hde <;> cases serT <;> exact ⟨rfl, rfl⟩

/-- C4: setPageInfo on a key with a pending registration resolves that
registration with the payload and clears it (so a repeated setPageInfo on the
same key changes nothing); setPageInfo on a key with no pending
registration — in particular any key already resolved — returns the state
unchanged, and the translated function is total, mirroring that the only call
in the body is guarded by the map lookup so the source never throws there. -/
theorem c4_setPageInfo_resolves_or_noop :
    ∀ (l : CrawlerA.PageInfoListener) (key : Nat) (info : CrawlerA.PageInfo),
      (key ∈ l.pageInfoSetters → l.pageInfoSetters.Nodup →
        ((l.setPageInfo key info).resolutions = l.resolutions ++ [(key, info)]
          ∧ key ∉ (l.setPageInfo key info).pageInfoSetters
          ∧ ∀ info2 : CrawlerA.PageInfo,
              (l.setPageInfo key info).setPageInfo key info2 = l.setPageInfo key info))
      ∧ (key ∉ l.pageInfoSetters → l.setPageInfo key info = l) := by
  intro l key info
  constructor
  · intro hmem hnodup
    have hres : l.setPageInfo key info = l.onDone key info := by
      unfold CrawlerA.PageInfoListener.setPageInfo
      rw [if_pos hmem]
    have hnot : key ∉ (l.onDone key info).pageInfoSetters := by
      intro hcon
      have hcon2 : key ∈ l.pageInfoSetters.erase key := hcon
      rcases (List.Nodup.mem_erase_iff hnodup).1 hcon2 with ⟨hne, _⟩
      exact hne rfl
    refine ⟨?_, ?_, ?_⟩
    · rw [hres]
      rfl
    · rw [hres]
      exact hnot
    · intro info2
      rw [hres]
      unfold CrawlerA.PageInfoListener.setPageInfo
      rw [if_neg hnot]
  · intro hnmem
    unfold CrawlerA.PageInfoListener.setPageInfo
    rw [if_neg hnmem]

/-- C4 witness: a pending registration for key 7 is resolved with the payload
and a setPageInfo for the unregistered key 3 is a no-op. -/
theorem c4_setPageInfo_resolves_or_noop_witness :
    ((CrawlerA.PageInfoListener.initial.expect 7).setPageInfo 7
        { error := none, payload := 5 }).resolutions
      = [(7, { error := none, payload := 5 })]
    ∧ CrawlerA.PageInfoListener.initial.setPageInfo 3 { error := none, payload := 5 }
      = CrawlerA.PageInfoListener.initial := by
  have h := c4_setPageInfo_resolves_or_noop
    (CrawlerA.PageInfoListener.initial.expect 7) 7 { error := none, payload := 5 }
  have h2 := c4_setPageInfo_resolves_or_noop
    CrawlerA.PageInfoListener.initial 3 { error := none, payload := 5 }
  refine ⟨?_, h2.2 (by decide)⟩
  have h3 := (h.1 (by decide) (by decide)).1
  simpa using h3

/-- C5: registering a key with expect and letting the timeout fire with no
intervening signal resolves the returned promise (the executor never calls
reject, so a resolution entry is the only possible settlement) with the
timeout sentinel object, and the resolution removes the registration: the key
is neither registered nor carrying an active timer afterwards. -/
theorem c5_expect_timeout_resolves_with_sentinel
    (l : CrawlerA.PageInfoListener) (key : Nat)
    (hs : key ∉ l.pageInfoSetters) (ht : key ∉ l.activeTimers) :
    ((l.expect key).fireTimeout key).resolutions
        = l.resolutions ++ [(key, CrawlerA.timeoutPageInfo)]
    ∧ key ∉ ((l.expect key).fireTimeout key).pageInfoSetters
    ∧ key ∉ ((l.expect key).fireTimeout key).activeTimers := by
  have e1 : (l.expect key).pageInfoSetters = key :: l.pageInfoSetters := by
    simp [CrawlerA.PageInfoListener.expect, List.erase_of_not_mem hs]
  have e2 : (l.expect key).activeTimers = key :: l.activeTimers := rfl
  have hmem : key ∈ (l.expect key).activeTimers := by
    rw [e2]
    exact List.mem_cons_self key _
  have hfire : (l.expect key).fireTimeout key
      = CrawlerA.PageInfoListener.onDone
          { l.expect key with activeTimers := ((l.expect key).activeTimers).erase key }
          key CrawlerA.timeoutPageInfo := by
    unfold CrawlerA.PageInfoListener.fireTimeout
    rw [if_pos hmem]
  rw [hfire]
  refine ⟨rfl, ?_, ?_⟩
  · show key ∉ ((l.expect key).pageInfoSetters).erase key
    rw [e1, List.erase_cons_head]
    exact hs
  · show key ∉ (((l.expect key).activeTimers).erase key).erase key
    rw [e2, List.erase_cons_head, List.erase_of_not_mem ht]
    exact ht

/-- C5 witness: expect then timeout on key 4 in the fresh listener resolves
with the timeout sentinel and leaves key 4 unregistered. -/
theorem c5_expect_timeout_resolves_with_sentinel_witness :
    ((CrawlerA.PageInfoListener.initial.expect 4).fireTimeout 4).resolutions
      = [(4, CrawlerA.timeoutPageInfo)]
    ∧ 4 ∉ ((CrawlerA.PageInfoListener.initial.expect 4).fireTimeout 4).pageInfoSetters := by
  have h := c5_expect_timeout_resolves_with_sentinel
    CrawlerA.PageInfoListener.initial 4 (by decide) (by decide)
  exact ⟨by simpa using h.1, h.2.1⟩

/-- C6 counterexample: capacity 1; request 0 takes the bootstrap slot,
request 1 is queued, request 0 releases its tab (last-slot branch stores a
replacement in `this._tab` and defers the real release), then request 2
arrives and getTab hands it `this._tab` immediately.  When the deferred
continuation finally runs, no capacity is left, so queued request 1 is still
waiting while the later request 2 was already served: serves = [0, 2] and
resolvers still [1].  The claim that the longest-waiting request is always
served first is therefore false of the first variant. -/
theorem c6_counterexample_overtake :
    (CrawlerA.TabAllocator.run (CrawlerA.TabAllocator.mkPool 1)
        [CrawlerA.PoolEvent.getTabEv 0, CrawlerA.PoolEvent.getTabEv 1,
         CrawlerA.PoolEvent.releaseTabEv 100]).resolvers = [1]
    ∧ (CrawlerA.TabAllocator.run (CrawlerA.TabAllocator.mkPool 1)
        [CrawlerA.PoolEvent.getTabEv 0, CrawlerA.PoolEvent.getTabEv 1,
         CrawlerA.PoolEvent.releaseTabEv 100, CrawlerA.PoolEvent.getTabEv 2,
         CrawlerA.PoolEvent.keepAliveThenEv]).serves = [0, 2]
    ∧ (CrawlerA.TabAllocator.run (CrawlerA.TabAllocator.mkPool 1)
        [CrawlerA.PoolEvent.getTabEv 0, CrawlerA.PoolEvent.getTabEv 1,
         CrawlerA.PoolEvent.releaseTabEv 100, CrawlerA.PoolEvent.getTabEv 2,
         CrawlerA.PoolEvent.keepAliveThenEv]).resolvers = [1] := by
  decide

/-- C6 (amended): requests that reach the resolver queue are mutually FIFO —
every step of the allocator either leaves the queue unchanged, enqueues one
new request at the back, or serves exactly the front (longest-waiting) queued
request.  However, a getTab arriving while the keep-alive `this._tab` slot is
present is served that slot immediately, ahead of already-queued requests, so
service order across all requests is not globally FIFO (see the
counterexample). -/
theorem c6_amended_queue_fifo_discipline :
    ∀ (s : CrawlerA.TabAllocator) (e : CrawlerA.PoolEvent),
      ((s.step e).resolvers = s.resolvers
        ∨ ∃ r, (s.step e).resolvers = s.resolvers ++ [r])
      ∨ (∃ r rest, s.resolvers = r :: rest
          ∧ (s.step e).resolvers = rest
          ∧ (s.step e).serves = s.serves ++ [r]) := by
  intro s e
  cases e with
  | getTabEv rid =>
    show ((s.getTab rid).resolvers = s.resolvers
        ∨ ∃ r, (s.getTab rid).resolvers = s.resolvers ++ [r])
      ∨ (∃ r rest, s.resolvers = r :: rest
          ∧ (s.getTab rid).resolvers = rest
          ∧ (s.getTab rid).serves = s.serves ++ [r])
    unfold CrawlerA.TabAllocator.getTab
    split
    · exact Or.inl (Or.inl rfl)
    · split
      · exact Or.inl (Or.inl rfl)
      · exact Or.inl (Or.inr ⟨rid, rfl⟩)
  | releaseTabEv t =>
    exact CrawlerA.releaseTab_queue_discipline s t
  | keepAliveThenEv =>
    show ((s.runKeepAliveThen).resolvers = s.resolvers
        ∨ ∃ r, (s.runKeepAliveThen).resolvers = s.resolvers ++ [r])
      ∨ (∃ r rest, s.resolvers = r :: rest
          ∧ (s.runKeepAliveThen).resolvers = rest
          ∧ (s.runKeepAliveThen).serves = s.serves ++ [r])
    unfold CrawlerA.TabAllocator.runKeepAliveThen
    split
    · exact Or.inl (Or.inl rfl)
    · exact CrawlerA.releaseTab_queue_discipline _ _

/-- C7: the claim says releaseTab on the last slot with no pending requests
creates a fresh replacement before freeing the original, keeping the live
count positive.  In the cited second variant the guard `_tabs == 1` can never
hold (`_createTab` increments the misspelled `tabs`, so `_tabs` is stuck
at 0), hence the replace-before-free branch is dead: releasing the only
allocated tab with an empty queue removes it immediately (removedTabs =
[50]), creates no replacement (createdTabs still 1, `this._tab` absent, no
pending continuation) — the pool drops to zero live slots. -/
theorem c7_last_slot_replacement_dead_eval :
    (CrawlerB.TabAllocator.run (CrawlerB.TabAllocator.mkPool 1)
        [CrawlerB.PoolEvent.getTabEv 0, CrawlerB.PoolEvent.bootThenEv,
         CrawlerB.PoolEvent.releaseTabEv 50]).removedTabs = [50]
    ∧ (CrawlerB.TabAllocator.run (CrawlerB.TabAllocator.mkPool 1)
        [CrawlerB.PoolEvent.getTabEv 0, CrawlerB.PoolEvent.bootThenEv,
         CrawlerB.PoolEvent.releaseTabEv 50]).createdTabs = 1
    ∧ (CrawlerB.TabAllocator.run (CrawlerB.TabAllocator.mkPool 1)
        [CrawlerB.PoolEvent.getTabEv 0, CrawlerB.PoolEvent.bootThenEv,
         CrawlerB.PoolEvent.releaseTabEv 50]).tabSlot = false
    ∧ (CrawlerB.TabAllocator.run (CrawlerB.TabAllocator.mkPool 1)
        [CrawlerB.PoolEvent.getTabEv 0, CrawlerB.PoolEvent.bootThenEv,
         CrawlerB.PoolEvent.releaseTabEv 50]).keepAliveOld = none := by
  decide

/-- C8 counterexample: the claim says a failed job's record carries the
timing fields already set before the failure.  A job whose load trigger
throws has startTime 5 set in its result object, but the rejection handler of
crawl_urls builds the posted record from scratch with a freshly sampled
Date.now (here 9): the posted startTime differs from the already-set one, so
no previously set timing field is carried over. -/
theorem c8_counterexample_startTime_resampled :
    (CrawlerA.crawl_url "u"
        { notifierThrows := false, loadThrows := true, awaitTimedOut := false,
          signalInfo := { error := none, payload := 0 }, startClock := 5,
          endClock := 6, currentURI := "f", windowID := 1 }).recordSoFar.startTime
      = some 5
    ∧ (CrawlerA.failureRecord "u" "loadURI threw" 9).startTime = some 9
    ∧ (CrawlerA.failureRecord "u" "loadURI threw" 9).startTime
        ≠ (CrawlerA.crawl_url "u"
            { notifierThrows := false, loadThrows := true, awaitTimedOut := false,
              signalInfo := { error := none, payload := 0 }, startClock := 5,
              endClock := 6, currentURI := "f", windowID := 1 }).recordSoFar.startTime := by
  refine ⟨rfl, rfl, by decide⟩

/-- C8 (amended): for every URL whose job rejects, exactly one record is
still posted for it, carrying the url, the stringified exception in the error
field and a startTime freshly sampled in the rejection handler (previously
accumulated fields of the job's own result object are not used); processing
the settlement still decrements the outstanding counter exactly once, so the
failure blocks neither the other jobs' records nor the final onDone. -/
theorem c8_failure_record_reported_exactly_once
    (url : String) (exc : String) (now : Nat) (s : CrawlerA.BatchState) :
    (CrawlerA.failureRecord url exc now).url = url
    ∧ (CrawlerA.failureRecord url exc now).error = some exc
    ∧ (CrawlerA.failureRecord url exc now).startTime = some now
    ∧ (CrawlerA.taskComplete s url (CrawlerA.TaskOutcome.failure exc now)).reports
        = s.reports ++ [CrawlerA.failureRecord url exc now]
    ∧ (CrawlerA.taskComplete s url (CrawlerA.TaskOutcome.failure exc now)).running
        = s.running - 1 := by
  refine ⟨rfl, rfl, rfl, ?_, ?_⟩
  · show (CrawlerA.taskDone
        { s with reports := s.reports ++ [CrawlerA.failureRecord url exc now] }).reports
      = s.reports ++ [CrawlerA.failureRecord url exc now]
    unfold CrawlerA.taskDone
    split <;> rfl
  · show (CrawlerA.taskDone
        { s with reports := s.reports ++ [CrawlerA.failureRecord url exc now] }).running
      = s.running - 1
    unfold CrawlerA.taskDone
    split <;> rfl

/-- C9: gatherPageInfo is total at its interface — without a documentElement
it returns the empty object (no screenshot, source or error property); when a
screenshot capture that was actually attempted or the source serialization
throws, the exception is caught and the returned object carries the error
property "Cannot gather page info"; when nothing throws, no error property is
set and the source is present. -/
theorem c9_gatherPageInfo_total_and_caught (env : ChildScript.GatherEnv) :
    (env.hasDocumentElement = false →
      ChildScript.gatherPageInfo env = ChildScript.emptyGatherResult)
    ∧ (env.hasDocumentElement = true →
        (((env.drawWindowThrows = true ∧ 0 < env.scrollWidth ∧ 0 < env.scrollHeight)
            ∨ env.serializeThrows = true) →
          (ChildScript.gatherPageInfo env).error = some "Cannot gather page info")
        ∧ (¬ ((env.drawWindowThrows = true ∧ 0 < env.scrollWidth ∧ 0 < env.scrollHeight)
            ∨ env.serializeThrows = true) →
          (ChildScript.gatherPageInfo env).error = none
          ∧ (ChildScript.gatherPageInfo env).source = some env.sourceData)) := by
  obtain ⟨hd, w, h, dt, st, scrD, srcD⟩ := env
  cases hd
  · exact ⟨fun _ => rfl, fun hcon => Bool.noConfusion hcon⟩
  · refine ⟨fun hcon => Bool.noConfusion hcon, fun _ => ⟨?_, ?_⟩⟩
    · intro hthrow
      by_cases hwh : 0 < w ∧ 0 < h
      · cases dt with
        | true =>
          simp [ChildScript.gatherPageInfo, ChildScript.gatherTry, hwh]
        | false =>
          cases st with
          | true =>
            simp [ChildScript.gatherPageInfo, ChildScript.gatherTry, hwh]
          | false =>
            rcases hthrow with ⟨hcon, _⟩ | hcon <;> exact Bool.noConfusion hcon
      · cases st with
        | true =>
          simp [ChildScript.gatherPageInfo, ChildScript.gatherTry, hwh]
        | false =>
          rcases hthrow with ⟨_, hcon⟩ | hcon
          · exact absurd hcon hwh
          · exact Bool.noConfusion hcon
    · intro hnothrow
      by_cases hwh : 0 < w ∧ 0 < h
      · cases dt with
        | true => exact absurd (Or.inl ⟨rfl, hwh.1, hwh.2⟩) hnothrow
        | false =>
          cases st with
          | true => exact absurd (Or.inr rfl) hnothrow
          | false =>
            constructor <;>
              simp [ChildScript.gatherPageInfo, ChildScript.gatherTry, hwh,
                ChildScript.emptyGatherResult]
      · cases st with
        | true => exact absurd (Or.inr rfl) hnothrow
        | false =>
          constructor <;>
            simp [ChildScript.gatherPageInfo, ChildScript.gatherTry, hwh,
              ChildScript.emptyGatherResult]

/-- C9 witness: with a documentElement and a throwing drawWindow the error
property is set; without a documentElement the empty object is returned. -/
theorem c9_gatherPageInfo_total_and_caught_witness :
    (ChildScript.gatherPageInfo
        { hasDocumentElement := true
          scrollWidth := 2
          scrollHeight := 3
          drawWindowThrows := true
          serializeThrows := false
          screenshotData := "s"
          sourceData := "p" }).error
      = some "Cannot gather page info"
    ∧ ChildScript.gatherPageInfo
        { hasDocumentElement := false
          scrollWidth := 2
          scrollHeight := 3
          drawWindowThrows := false
          serializeThrows := false
          screenshotData := "s"
          sourceData := "p" }
      = ChildScript.emptyGatherResult := by
  have h1 := c9_gatherPageInfo_total_and_caught
    { hasDocumentElement := true
      scrollWidth := 2
      scrollHeight := 3
      drawWindowThrows := true
      serializeThrows := false
      screenshotData := "s"
      sourceData := "p" }
  have h2 := c9_gatherPageInfo_total_and_caught
    { hasDocumentElement := false
      scrollWidth := 2
      scrollHeight := 3
      drawWindowThrows := false
      serializeThrows := false
      screenshotData := "s"
      sourceData := "p" }
  exact ⟨(h1.2 rfl).1 (Or.inl ⟨rfl, by decide, by decide⟩), h2.1 rfl⟩

/-- C10: go throws exactly when the action is not Ready; a successful go
sets the state to Running before invoking the subprogram (the ghost stateAtGo
records Running) and increments the invocation count; and over every sequence
of go/end_well/end_badly operations on an initialized action the subprogram
runs at most once — a second go always finds a non-Ready state and throws. -/
theorem c10_go_gate_and_single_start (a : ActionLib.AsyncAction) :
    (ActionLib.isThrow a.go = true ↔ a.state ≠ ActionLib.ActionState.Ready)
    ∧ (a.state = ActionLib.ActionState.Ready →
        a.go = Except.ok { a with
          state := ActionLib.ActionState.Running
          goCount := a.goCount + 1
          stateAtGo := some ActionLib.ActionState.Running })
    ∧ ∀ es : List ActionLib.ActionEvent,
        (ActionLib.AsyncAction.init.runScript es).goCount ≤ 1 := by
  refine ⟨?_, ?_, ?_⟩
  · by_cases hs : a.state = ActionLib.ActionState.Ready <;>
      simp [ActionLib.isThrow, ActionLib.AsyncAction.go, hs]
  · intro hs
    unfold ActionLib.AsyncAction.go
    rw [if_neg (by simp [hs])]
  · intro es
    exact (ActionLib.goInv_runScript ActionLib.AsyncAction.init es
      ⟨Nat.zero_le 1, fun _ => rfl⟩).1

/-- C10 witness: go on a freshly initialized action succeeds and moves it to
Running with the subprogram observing state Running; two consecutive go
events still run the subprogram only once. -/
theorem c10_go_gate_and_single_start_witness :
    ActionLib.AsyncAction.init.go
      = Except.ok { state := ActionLib.ActionState.Running
                    goCount := 1
                    stateAtGo := some ActionLib.ActionState.Running }
    ∧ (ActionLib.AsyncAction.init.runScript
        [ActionLib.ActionEvent.goEv, ActionLib.ActionEvent.goEv]).goCount ≤ 1 := by
  have h := c10_go_gate_and_single_start ActionLib.AsyncAction.init
  exact ⟨h.2.1 rfl, h.2.2 [ActionLib.ActionEvent.goEv, ActionLib.ActionEvent.goEv]⟩
